import Mathlib

/- Verification development for the jello command-line JSON query tool.

   The CLI driver (src/jello/cli.py) is embedded shallowly below.  The
   library back-ends it imports (jello.lib: opts, load_json, pyquery,
   Schema, create_json) are not part of the supplied sources; they are
   modelled from the specification document (sections 3, 4.1-4.5, 6, 7),
   and each such definition is marked "Modelled from the spec".  Machine
   integers do not occur (Python integers are unbounded); floating-point
   numbers are kept as exact decimal mantissa/exponent pairs since no
   claim depends on binary rounding. -/

set_option autoImplicit false

/-- Modelled from the spec: the Document Model (section 3), a tagged-union
    JSON value.  `float m e` stands for the decimal value m * 10 ^ e;
    binary floating-point rounding is not modelled.  A Map is an ordered
    association list with unique keys; a List is ordered and may be
    heterogeneous. -/
inductive Value where
  | null : Value
  | boolean : Bool → Value
  | int : Int → Value
  | float : Int → Int → Value
  | str : String → Value
  | list : List Value → Value
  | obj : List (String × Value) → Value

/-- Insert or update a key in an ordered association list: an existing key
    keeps its position and gets the new value (Python dict semantics); a
    new key is appended. -/
def updateAssocV (m : List (String × Value)) (k : String) (v : Value) :
    List (String × Value) :=
  match m with
  | [] => [(k, v)]
  | (k2, v2) :: rest =>
      if k2 = k then (k, v) :: rest else (k2, v2) :: updateAssocV rest k v

/-- First value bound to a key in an ordered association list. -/
def lookupStr (m : List (String × Value)) (k : String) : Option Value :=
  match m with
  | [] => none
  | (k2, v2) :: rest => if k2 = k then some v2 else lookupStr rest k

/- ---------------------------------------------------------------------
   JSON text parsing (Document Loader, spec section 4.1).
   --------------------------------------------------------------------- -/

/-- JSON insignificant whitespace characters. -/
def jsonWs (c : Char) : Bool :=
  c = ' ' || c = '\t' || c = '\n' || c = '\r'

/-- Drop leading JSON whitespace. -/
def skipWs : List Char → List Char
  | [] => []
  | c :: cs => if jsonWs c then skipWs cs else c :: cs

/-- Numeric value of a decimal digit list (most significant first). -/
def digitsToNat (ds : List Char) : Nat :=
  ds.foldl (fun a c => a * 10 + (c.toNat - 48)) 0

/-- Hexadecimal value of one character, if it is a hex digit. -/
def hexVal (c : Char) : Option Nat :=
  if '0' ≤ c ∧ c ≤ '9' then some (c.toNat - 48)
  else if 'a' ≤ c ∧ c ≤ 'f' then some (c.toNat - 87)
  else if 'A' ≤ c ∧ c ≤ 'F' then some (c.toNat - 55)
  else none

/-- Modelled from the spec: body of a JSON string literal after the opening
    quote, with the standard escapes; returns the decoded characters and
    the input remaining after the closing quote.  Unpaired surrogate
    escapes are mapped to the null character rather than rejected. -/
def parseJStr : Nat → List Char → Except String (String × List Char)
  | 0, _ => .error "parser fuel exhausted"
  | _ + 1, [] => .error "Unterminated string"
  | fuel + 1, c :: cs =>
    if c = '"' then .ok ("", cs)
    else if c = '\\' then
      match cs with
      | [] => .error "Unterminated string"
      | e :: cs2 =>
        let dec : Except String (Char × List Char) :=
          if e = '"' then .ok ('"', cs2)
          else if e = '\\' then .ok ('\\', cs2)
          else if e = '/' then .ok ('/', cs2)
          else if e = 'b' then .ok ('\x08', cs2)
          else if e = 'f' then .ok ('\x0c', cs2)
          else if e = 'n' then .ok ('\n', cs2)
          else if e = 'r' then .ok ('\r', cs2)
          else if e = 't' then .ok ('\t', cs2)
          else if e = 'u' then
            match cs2 with
            | h1 :: h2 :: h3 :: h4 :: cs3 =>
              match hexVal h1, hexVal h2, hexVal h3, hexVal h4 with
              | some a, some b, some c3, some d =>
                  .ok (Char.ofNat (((a * 16 + b) * 16 + c3) * 16 + d), cs3)
              | _, _, _, _ => .error "Invalid \\u escape"
            | _ => .error "Invalid \\u escape"
          else .error "Invalid \\escape"
        match dec with
        | .ok (ch, rest) =>
            match parseJStr fuel rest with
            | .ok (s, r2) => .ok (String.mk (ch :: s.toList), r2)
            | .error m => .error m
        | .error m => .error m
    else if c.toNat < 32 then .error "Invalid control character"
    else
      match parseJStr fuel cs with
      | .ok (s, r2) => .ok (String.mk (c :: s.toList), r2)
      | .error m => .error m

/-- Modelled from the spec: a JSON number literal starting at the given
    characters (optional minus sign, integer part without redundant
    leading zeros, optional fraction, optional exponent).  An integer
    literal becomes `Value.int`; a literal with fraction or exponent
    becomes `Value.float` holding its exact decimal value. -/
def parseJNum (cs : List Char) : Except String (Value × List Char) :=
  let signed : Bool × List Char :=
    match cs with
    | '-' :: r => (true, r)
    | _ => (false, cs)
  let neg := signed.1
  let ipSplit := signed.2.span Char.isDigit
  let ip := ipSplit.1
  let cs2 := ipSplit.2
  if ip = [] then .error "Expecting value"
  else if 1 < ip.length ∧ ip.headD '0' = '0' then .error "Expecting value"
  else
    let intMag : Nat := digitsToNat ip
    let fracSplit : Option (List Char × List Char) :=
      match cs2 with
      | '.' :: cs3 =>
          let p := cs3.span Char.isDigit
          if p.1 = [] then none else some (p.1, p.2)
      | _ => some ([], cs2)
    match fracSplit with
    | none => .error "Expecting digits after decimal point"
    | some (fp, cs4) =>
      let expSplit : Option (Int × List Char) :=
        match cs4 with
        | e :: cs5 =>
          if e = 'e' ∨ e = 'E' then
            let signed2 : Bool × List Char :=
              match cs5 with
              | '-' :: r => (true, r)
              | '+' :: r => (false, r)
              | _ => (false, cs5)
            let p := signed2.2.span Char.isDigit
            if p.1 = [] then none
            else some (if signed2.1 then -(digitsToNat p.1 : Int)
                       else (digitsToNat p.1 : Int), p.2)
          else some (0, cs4)
        | [] => some (0, cs4)
      match expSplit with
      | none => .error "Expecting digits in exponent"
      | some (ex, cs6) =>
        if fp = [] ∧ ex = 0 ∧ cs4 = cs2 then
          .ok (.int (if neg then -(intMag : Int) else (intMag : Int)), cs2)
        else
          let mantMag : Nat := digitsToNat (ip ++ fp)
          let mant : Int := if neg then -(mantMag : Int) else (mantMag : Int)
          .ok (.float mant (ex - (fp.length : Int)), cs6)

mutual

/-- Modelled from the spec: recursive-descent parse of one JSON value;
    returns the value and the remaining input.  Fuel decreases on every
    recursive call and one unit per consumed character suffices. -/
def parseJValue : Nat → List Char → Except String (Value × List Char)
  | 0, _ => .error "parser fuel exhausted"
  | fuel + 1, cs0 =>
    match skipWs cs0 with
    | 'n' :: 'u' :: 'l' :: 'l' :: r => .ok (.null, r)
    | 't' :: 'r' :: 'u' :: 'e' :: r => .ok (.boolean true, r)
    | 'f' :: 'a' :: 'l' :: 's' :: 'e' :: r => .ok (.boolean false, r)
    | '"' :: r =>
        match parseJStr fuel r with
        | .ok (s, r2) => .ok (.str s, r2)
        | .error m => .error m
    | '[' :: r =>
        match skipWs r with
        | ']' :: r2 => .ok (.list [], r2)
        | r2 => parseJElems fuel r2 []
    | '\x7b' :: r =>
        match skipWs r with
        | '\x7d' :: r2 => .ok (.obj [], r2)
        | r2 => parseJMembers fuel r2 []
    | c :: rest =>
        if c = '-' ∨ c.isDigit then parseJNum (c :: rest)
        else .error "Expecting value"
    | [] => .error "Expecting value"

/-- Elements of a JSON array after the opening bracket (first element not
    yet parsed), accumulating in order. -/
def parseJElems : Nat → List Char → List Value → Except String (Value × List Char)
  | 0, _, _ => .error "parser fuel exhausted"
  | fuel + 1, cs, acc =>
    match parseJValue fuel cs with
    | .error m => .error m
    | .ok (v, r) =>
      match skipWs r with
      | ',' :: r2 => parseJElems fuel r2 (acc ++ [v])
      | ']' :: r2 => .ok (.list (acc ++ [v]), r2)
      | _ => .error "Expecting comma delimiter"

/-- Members of a JSON object after the opening brace (first member not yet
    parsed); duplicate keys keep the first position and the last value
    (Python dict semantics), so Map keys stay unique. -/
def parseJMembers : Nat → List Char → List (String × Value) →
    Except String (Value × List Char)
  | 0, _, _ => .error "parser fuel exhausted"
  | fuel + 1, cs, acc =>
    match skipWs cs with
    | '"' :: r =>
      match parseJStr fuel r with
      | .error m => .error m
      | .ok (k, r2) =>
        match skipWs r2 with
        | ':' :: r3 =>
          match parseJValue fuel r3 with
          | .error m => .error m
          | .ok (v, r4) =>
            match skipWs r4 with
            | ',' :: r5 => parseJMembers fuel r5 (updateAssocV acc k v)
            | '\x7d' :: r5 => .ok (.obj (updateAssocV acc k v), r5)
            | _ => .error "Expecting comma delimiter"
        | _ => .error "Expecting colon delimiter"
    | _ => .error "Expecting property name"

end

/-- Modelled from the spec: parse a whole text as a single JSON value
    (matching Python json.loads): one value, with only whitespace allowed
    around it. -/
def json_loads (s : String) : Except String Value :=
  match parseJValue (s.length + 1) s.toList with
  | .error m => .error m
  | .ok (v, rest) =>
      match skipWs rest with
      | [] => .ok v
      | _ => .error "Extra data"

/-- Split a character list at every occurrence of a separator character
    (Python str.split with a one-character separator). -/
def splitOnChar (sep : Char) : List Char → List (List Char)
  | [] => [[]]
  | c :: cs =>
    if c = sep then [] :: splitOnChar sep cs
    else
      match splitOnChar sep cs with
      | l :: ls => (c :: l) :: ls
      | [] => [[c]]

/-- Split a string at every occurrence of a separator character. -/
def splitChar (s : String) (sep : Char) : List String :=
  (splitOnChar sep s.toList).map String.mk

/-- A text line that is blank: empty or whitespace only. -/
def blankLine (l : String) : Bool :=
  l.toList.all jsonWs

/-- Modelled from the spec: jello.lib.load_json (section 4.1).  Try the
    text as one JSON value; on failure try JSON-Lines: split on newlines,
    parse every non-blank line, wrap the results in a List when more than
    one line parsed and return the single value when exactly one.  Fails
    when neither interpretation succeeds; no partial result. -/
def load_json (data : String) : Except String Value :=
  match json_loads data with
  | .ok v => .ok v
  | .error _ =>
    let nonblank := (splitChar data '\n').filter (fun l => !(blankLine l))
    match nonblank.mapM json_loads with
    | .error m => .error m
    | .ok [] => .error "No JSON data found"
    | .ok [v] => .ok v
    | .ok vs => .ok (.list vs)

/- ---------------------------------------------------------------------
   Query Engine (spec sections 4.2 and 4.3).  jello.lib.pyquery is not in
   the supplied sources; the mandatory access-path subset of the query
   language is modelled from the spec.
   --------------------------------------------------------------------- -/

/-- Modelled from the spec: one step of an Access Path (section 3). -/
inductive Step where
  | attr : String → Step
  | key : String → Step
  | index : Int → Step
  | slice : Option Int → Option Int → Option Int → Step
deriving DecidableEq, Repr

/-- Modelled from the spec: structured query-evaluation error values
    (section 7 taxonomy; badQuery is the query SyntaxError kind). -/
inductive QueryError where
  | keyNotFound : String → QueryError
  | indexOutOfRange : Int → QueryError
  | typeMismatch : String → QueryError
  | invalidSlice : QueryError
  | badQuery : String → QueryError
deriving DecidableEq, Repr

/-- Exception class name used when rendering a query error (cli.py
    print_exception prints e.__class__.__name__). -/
def QueryError.clsName : QueryError → String
  | .keyNotFound _ => "KeyNotFound"
  | .indexOutOfRange _ => "IndexOutOfRange"
  | .typeMismatch _ => "TypeMismatch"
  | .invalidSlice => "InvalidSlice"
  | .badQuery _ => "SyntaxError"

/-- Message text of a query error (what Python str(e) supplies). -/
def QueryError.msg : QueryError → String
  | .keyNotFound k => k
  | .indexOutOfRange _ => "list index out of range"
  | .typeMismatch s => s
  | .invalidSlice => "slice step cannot be zero"
  | .badQuery s => s

/-- First character of a bare identifier: a letter or underscore. -/
def isIdentStart (c : Char) : Bool :=
  c.isAlpha || c = '_'

/-- Later character of a bare identifier: alphanumeric or underscore. -/
def isIdentChar (c : Char) : Bool :=
  c.isAlphanum || c = '_'

/-- Optional signed decimal integer at the head of the input; when the
    head is not an integer the input is returned unconsumed. -/
def parseOptInt (cs : List Char) : Option Int × List Char :=
  match cs with
  | '-' :: rest =>
      let p := rest.span Char.isDigit
      if p.1 = [] then (none, cs) else (some (-(digitsToNat p.1 : Int)), p.2)
  | _ =>
      let p := cs.span Char.isDigit
      if p.1 = [] then (none, cs) else (some ((digitsToNat p.1 : Int)), p.2)

/-- Modelled from the spec: contents of one bracket step after the opening
    bracket (section 4.2): a quoted map key, a list index, or a slice with
    up to three optional integer components; an empty bracket is a syntax
    error. -/
def parseBracket (cs : List Char) : Except QueryError (Step × List Char) :=
  match cs with
  | q :: cs2 =>
    if q = '"' ∨ q = '\x27' then
      let p := cs2.span (fun c => !(c = q))
      match p.2 with
      | _ :: ']' :: rest => .ok (.key (String.mk p.1), rest)
      | _ => .error (.badQuery "unterminated bracket or quote")
    else
      let a := parseOptInt cs
      match a.2 with
      | ']' :: rest =>
        match a.1 with
        | some n => .ok (.index n, rest)
        | none => .error (.badQuery "empty bracket expression")
      | ':' :: cs3 =>
        let b := parseOptInt cs3
        match b.2 with
        | ']' :: rest => .ok (.slice a.1 b.1 none, rest)
        | ':' :: cs4 =>
          let c := parseOptInt cs4
          match c.2 with
          | ']' :: rest => .ok (.slice a.1 b.1 c.1, rest)
          | _ => .error (.badQuery "unterminated bracket")
        | _ => .error (.badQuery "unterminated bracket")
      | _ => .error (.badQuery "unterminated bracket")
  | [] => .error (.badQuery "unterminated bracket")

/-- Modelled from the spec: zero or more chained steps (section 4.2);
    anything outside the fixed grammar is rejected.  Fuel decreases every
    call; each step consumes at least one character. -/
def parseSteps : Nat → List Char → Except QueryError (List Step)
  | 0, _ => .error (.badQuery "query too long")
  | _ + 1, [] => .ok []
  | fuel + 1, '.' :: cs =>
      let p := cs.span isIdentChar
      match p.1 with
      | [] => .error (.badQuery "invalid attribute name")
      | c :: _ =>
        if isIdentStart c then
          match parseSteps fuel p.2 with
          | .ok ss => .ok (.attr (String.mk p.1) :: ss)
          | .error e => .error e
        else .error (.badQuery "invalid attribute name")
  | fuel + 1, '[' :: cs =>
      match parseBracket cs with
      | .ok (s, rest) =>
        match parseSteps fuel rest with
        | .ok ss => .ok (s :: ss)
        | .error e => .error e
      | .error e => .error e
  | _ + 1, _ :: _ => .error (.badQuery "unexpected character in query")

/-- Modelled from the spec: parse a query string into an Access Path:
    an optional root marker then chained steps; the empty path denotes
    the whole document. -/
def parseQuery (q : String) : Except QueryError (List Step) :=
  let cs :=
    match q.toList with
    | '_' :: rest => rest
    | other => other
  parseSteps (cs.length + 1) cs

/-- Python list indexing: a negative index counts from the end; out of
    range fails. -/
def pyIndex (l : List Value) (i : Int) : Except QueryError Value :=
  let n : Int := l.length
  let j := if i < 0 then i + n else i
  if 0 ≤ j ∧ j < n then .ok (l.getD j.toNat .null)
  else .error (.indexOutOfRange i)

/-- Python slice bound normalization for a positive step: negative values
    count from the end, then clamp into [0, n]. -/
def clampPosIdx (i n : Int) : Int :=
  let j := if i < 0 then i + n else i
  if j < 0 then 0 else if j > n then n else j

/-- Python slice bound normalization for a negative step: negative values
    count from the end, then clamp into [-1, n-1]. -/
def clampNegIdx (i n : Int) : Int :=
  let j := if i < 0 then i + n else i
  if j < 0 then -1 else if j ≥ n then n - 1 else j

/-- Indices visited by a normalized slice: from i towards stop by st. -/
def sliceIdxs (fuel : Nat) (i stop st : Int) : List Int :=
  match fuel with
  | 0 => []
  | fuel + 1 =>
      if (st > 0 ∧ i < stop) ∨ (st < 0 ∧ i > stop) then
        i :: sliceIdxs fuel (i + st) stop st
      else []

/-- Modelled from the spec: Python slice semantics on a sequence
    (section 4.3): out-of-range bounds clamp instead of erroring and a
    zero step fails with InvalidSlice. -/
def pySlice {α : Type} (dflt : α) (l : List α) (a? b? c? : Option Int) :
    Except QueryError (List α) :=
  let st := c?.getD 1
  if st = 0 then .error .invalidSlice
  else
    let n : Int := l.length
    let lo := if st > 0 then clampPosIdx (a?.getD 0) n
              else match a? with
                   | none => n - 1
                   | some a => clampNegIdx a n
    let hi := if st > 0 then clampPosIdx (b?.getD n) n
              else match b? with
                   | none => -1
                   | some b => clampNegIdx b n
    .ok ((sliceIdxs (l.length + 1) lo hi st).map (fun i => l.getD i.toNat dflt))

/-- Modelled from the spec: evaluation of one Access Path step against a
    receiver (section 4.3 per-step semantics and failure modes). -/
def evalStep (v : Value) (s : Step) : Except QueryError Value :=
  match s with
  | .attr name =>
    match v with
    | .obj m =>
      match lookupStr m name with
      | some x => .ok x
      | none => .error (.keyNotFound name)
    | _ => .error (.typeMismatch "attribute access on a non-object value")
  | .key k =>
    match v with
    | .obj m =>
      match lookupStr m k with
      | some x => .ok x
      | none => .error (.keyNotFound k)
    | _ => .error (.typeMismatch "key access on a non-object value")
  | .index i =>
    match v with
    | .list l => pyIndex l i
    | _ => .error (.typeMismatch "index access on a non-array value")
  | .slice a? b? c? =>
    match v with
    | .list l =>
      match pySlice Value.null l a? b? c? with
      | .ok l2 => .ok (.list l2)
      | .error e => .error e
    | .str s2 =>
      match pySlice ' ' s2.toList a? b? c? with
      | .ok cs => .ok (.str (String.mk cs))
      | .error e => .error e
    | _ => .error (.typeMismatch "slice on a non-sequence value")

/-- Modelled from the spec: strict left-to-right evaluation of a path;
    the result of each step is the next receiver, the empty path returns the
    root, and the first failure short-circuits (section 4.3). -/
def evalPath (v : Value) : List Step → Except QueryError Value
  | [] => .ok v
  | s :: rest =>
    match evalStep v s with
    | .ok v2 => evalPath v2 rest
    | .error e => .error e

/-- Modelled from the spec: jello.lib.pyquery — parse the query text and
    evaluate the resulting Access Path against the loaded document.  The
    optional initialization-file mechanism is excluded by the spec
    (section 1, out of scope) and is not modelled. -/
def pyquery (doc : Value) (q : String) : Except QueryError Value :=
  match parseQuery q with
  | .ok p => evalPath doc p
  | .error e => .error e

/- ---------------------------------------------------------------------
   Rendering helpers shared by the Schema Walker and the Serializer.
   --------------------------------------------------------------------- -/

/-- Lower-case hexadecimal digit character. -/
def hexDigitChar (n : Nat) : Char :=
  if n < 10 then Char.ofNat (48 + n) else Char.ofNat (87 + n)

/-- JSON escaping of one character inside a quoted string. -/
def jsonEscapeChar (c : Char) : String :=
  if c = '"' then "\\\""
  else if c = '\\' then "\\\\"
  else if c = '\n' then "\\n"
  else if c = '\t' then "\\t"
  else if c = '\r' then "\\r"
  else if c = '\x08' then "\\b"
  else if c = '\x0c' then "\\f"
  else if c.toNat < 32 then
    "\\u00" ++ String.mk [hexDigitChar (c.toNat / 16), hexDigitChar (c.toNat % 16)]
  else String.singleton c

/-- A string as a quoted, escaped JSON string literal. -/
def jsonQuote (s : String) : String :=
  "\"" ++ String.join (s.toList.map jsonEscapeChar) ++ "\""

/-- Decimal text of the exact float value m * 10 ^ e (canonical enough for
    this model; the shortest-round-trip float repr of Python is not modelled). -/
def floatText (m e : Int) : String :=
  let sign := if m < 0 then "-" else ""
  let ds := (toString m.natAbs).toList
  if 0 ≤ e then
    sign ++ String.mk ds ++ String.mk (List.replicate e.toNat '0') ++ ".0"
  else
    let k := (-e).toNat
    if k < ds.length then
      sign ++ String.mk (ds.take (ds.length - k)) ++ "." ++
        String.mk (ds.drop (ds.length - k))
    else
      sign ++ "0." ++ String.mk (List.replicate (k - ds.length) '0') ++
        String.mk ds

/-- JSON literal text of a terminal (non-container) value. -/
def scalarText : Value → String
  | .null => "null"
  | .boolean true => "true"
  | .boolean false => "false"
  | .int n => toString n
  | .float m e => floatText m e
  | .str s => jsonQuote s
  | .list _ => "[]"
  | .obj _ => "\x7b\x7d"

/-- Whether a value is terminal (not a container). -/
def isScalar : Value → Bool
  | .list _ => false
  | .obj _ => false
  | _ => true

/- ---------------------------------------------------------------------
   Schema Walker (spec section 4.4), modelled from the spec: the Schema
   class of jello.lib is not in the supplied sources.  Color handling is
   excluded from the core by the spec (section 1).
   --------------------------------------------------------------------- -/

/-- Type-name tag of a terminal schema line. -/
def typeName : Value → String
  | .null => "null"
  | .boolean _ => "boolean"
  | .int _ => "integer"
  | .float _ _ => "float"
  | .str s => let _ := s; "string"
  | .list _ => "array"
  | .obj _ => "object"

/-- One schema line: path, literal value and type tag in the stable
    grep-friendly format of spec section 6. -/
def schemaLine (path val ty : String) : String :=
  path ++ " = " ++ val ++ ";  (" ++ ty ++ ")"

/-- Render one map-key step in access-path syntax: dot notation when the
    key is a bare identifier, bracket form otherwise. -/
def renderKeyStep (k : String) : String :=
  match k.toList with
  | [] => "[" ++ jsonQuote k ++ "]"
  | c :: rest =>
    if isIdentStart c ∧ rest.all isIdentChar then "." ++ k
    else "[" ++ jsonQuote k ++ "]"

mutual

/-- Modelled from the spec: the Schema Walker (section 4.4) — emit one
    line per terminal value in document order, an empty container being
    itself terminal; containers with children produce no line of their
    own and the walker never fails. -/
def schemaLines (path : String) : Value → List String
  | .obj [] => [schemaLine path "\x7b\x7d" "object"]
  | .list [] => [schemaLine path "[]" "array"]
  | .obj (p :: ps) => schemaPairs path (p :: ps)
  | .list (v :: vs) => schemaElems path 0 (v :: vs)
  | v => [schemaLine path (scalarText v) (typeName v)]

/-- Walk map entries in insertion order. -/
def schemaPairs (path : String) : List (String × Value) → List String
  | [] => []
  | (k, v) :: ps => schemaLines (path ++ renderKeyStep k) v ++ schemaPairs path ps

/-- Walk list elements in index order. -/
def schemaElems (path : String) (i : Nat) : List Value → List String
  | [] => []
  | v :: vs =>
      schemaLines (path ++ "[" ++ toString i ++ "]") v ++ schemaElems path (i + 1) vs

end

/-- Modelled from the spec: the schema text for a value — one line per
    terminal path, rooted at the whole-document marker. -/
def schemaText (v : Value) : String :=
  String.intercalate "\n" (schemaLines "_" v)

/- ---------------------------------------------------------------------
   Serializer (spec section 4.5), modelled from the spec: the
   create_json function of jello.lib is not in the supplied sources.
   --------------------------------------------------------------------- -/

/-- The option state of jello.lib.opts.  The source flag named for
    initializing the environment is called `init` here (its source name is
    reserved in this development); all flags default to off. -/
structure Opts where
  compact : Bool
  init : Bool
  lines : Bool
  mono : Bool
  nulls : Bool
  raw : Bool
  schema : Bool
  version_info : Bool
  helpme : Bool
deriving DecidableEq, Repr

/-- Modelled from the spec: the default option state (every flag off). -/
def Opts.dflt : Opts :=
  ⟨false, false, false, false, false, false, false, false, false⟩

mutual

/-- Modelled from the spec: suppressNulls (section 4.5) — drop Map entries
    whose value is Null, recursively; list elements are kept. -/
def stripNulls : Value → Value
  | .obj m => .obj (stripPairs m)
  | .list l => .list (stripList l)
  | v => v

/-- Null-stripping inside a list: recurse into each element. -/
def stripList : List Value → List Value
  | [] => []
  | v :: vs => stripNulls v :: stripList vs

/-- Null-stripping inside a map: drop entries whose value is Null. -/
def stripPairs : List (String × Value) → List (String × Value)
  | [] => []
  | (k, v) :: ps =>
    match v with
    | .null => stripPairs ps
    | v2 => (k, stripNulls v2) :: stripPairs ps

end

/-- Indentation of n spaces. -/
def spaces (n : Nat) : String :=
  String.mk (List.replicate n ' ')

mutual

/-- Modelled from the spec: JSON rendering (section 4.5) — compact with no
    whitespace, or pretty-printed with two-space indentation. -/
def jsonRender (compact : Bool) (ind : Nat) : Value → String
  | .list [] => "[]"
  | .obj [] => "\x7b\x7d"
  | .list (v :: vs) =>
    if compact then
      "[" ++ String.intercalate "," (jsonRenderList compact (ind + 2) (v :: vs)) ++ "]"
    else
      "[\n" ++
        String.intercalate ",\n"
          ((jsonRenderList compact (ind + 2) (v :: vs)).map (fun s => spaces (ind + 2) ++ s)) ++
        "\n" ++ spaces ind ++ "]"
  | .obj (p :: ps) =>
    if compact then
      "\x7b" ++ String.intercalate "," (jsonRenderPairs compact (ind + 2) (p :: ps)) ++ "\x7d"
    else
      "\x7b\n" ++
        String.intercalate ",\n"
          ((jsonRenderPairs compact (ind + 2) (p :: ps)).map (fun s => spaces (ind + 2) ++ s)) ++
        "\n" ++ spaces ind ++ "\x7d"
  | v => scalarText v

/-- Rendered list elements, in order. -/
def jsonRenderList (compact : Bool) (ind : Nat) : List Value → List String
  | [] => []
  | v :: vs => jsonRender compact ind v :: jsonRenderList compact ind vs

/-- Rendered map entries, in order. -/
def jsonRenderPairs (compact : Bool) (ind : Nat) : List (String × Value) → List String
  | [] => []
  | (k, v) :: ps =>
      (jsonQuote k ++ (if compact then ":" else ": ") ++ jsonRender compact ind v) ::
        jsonRenderPairs compact ind ps

end

/-- Line-mode text of one scalar element: a string is emitted raw, any
    other scalar as its JSON literal. -/
def lineText : Value → String
  | .str s => s
  | v => scalarText v

/-- Modelled from the spec: jello.lib.create_json (section 4.5).  Null map
    entries are suppressed unless the print-nulls flag is on; a top-level
    Null renders as nothing under suppression (section 4.3 policy); `raw`
    emits a top-level string unquoted and `lines` emits a list of scalars
    one per line, each falling back to standard JSON rendering when its
    shape precondition fails; otherwise compact or two-space-indented
    JSON. -/
def create_json (response : Value) (o : Opts) : String :=
  let v := if o.nulls then response else stripNulls response
  let fb := jsonRender o.compact 0 v
  match v with
  | .null => if o.nulls then "null" else ""
  | _ =>
    if o.raw then
      match v with
      | .str s => s
      | _ => fb
    else if o.lines then
      match v with
      | .list l => if l.all isScalar then String.intercalate "\n" (l.map lineText) else fb
      | _ => fb
    else fb

/- ---------------------------------------------------------------------
   CLI layer: shallow embedding of src/jello/cli.py.
   --------------------------------------------------------------------- -/

/-- How a call to main ends: falling off the end of the function, or a
    sys.exit with the given status (sys.exit() with no argument is
    status 0). -/
inductive Termination where
  | normal : Termination
  | exited : Nat → Termination
deriving DecidableEq, Repr

/-- The process environment a call to main observes: piped stdin text
    (none when stdin is a terminal), whether stdout is a terminal, whether
    the optional pygments import succeeded, the external highlight
    function, and the package version banner (external package metadata,
    printed for the -v flag). -/
structure Env where
  stdin : Option String
  stdoutIsTty : Bool
  pygmentsInstalled : Bool
  highlightFn : String → String
  versionText : String

/-- Observable outcome of one call to main: text printed to stdout and
    stderr, how the call ended, the module-level option state after the
    call (cli.py line 8 imports the shared opts object from jello.lib and
    lines 145-153 mutate it in place), and the values of the local
    variables response and output when reached (empty otherwise). -/
structure ExecResult where
  stdout : String
  stderr : String
  term : Termination
  opts : Opts
  response? : Option Value
  output : String

/-- The help text printed by cli.py helptext (lines 36-57), after
    textwrap.dedent. -/
def helpText : String :=
  "jello:  query JSON at the command line with python syntax\n\n" ++
  "Usage:  cat data.json | jello [OPTIONS] [QUERY]\n\n" ++
  "        -c   compact JSON output\n" ++
  "        -i   initialize environment with .jelloconf.py in ~ (linux) or %appdata% (Windows)\n" ++
  "        -l   output as lines suitable for assignment to a bash array\n" ++
  "        -m   monochrome output\n" ++
  "        -n   print selected null values\n" ++
  "        -r   raw string output (no quotes)\n" ++
  "        -s   print the JSON schema in grep-able format\n" ++
  "        -v   version info\n" ++
  "        -h   help\n\n" ++
  "Use \x27_\x27 as the input data and use python dict and list bracket syntax or dot notation.\n\n" ++
  "Examples:\n" ++
  "        cat data.json | jello _.foo\n" ++
  "        cat data.json | jello \x27_[\"foo\"]\x27\n" ++
  "        variable=($(cat data.json | jello -l _.foo))\n"

/-- Outcome of helptext (cli.py lines 35-58): print the help text and
    sys.exit() — status 0 — leaving the option state as it stands. -/
def helpResult (o : Opts) : ExecResult :=
  ⟨helpText ++ "\n", "", .exited 0, o, none, ""⟩

/-- The missing-data message of cli.py line 169 (the Python literal ends
    in a newline of its own). -/
def missingDataMsg : String :=
  "jello:  missing piped JSON or JSON Lines data\n"

/-- The characters Python str.isspace accepts, from the CPython 3.11
    Unicode tables (bidirectional classes WS, B and S plus the separator
    categories): tab through carriage return (0x9-0xd), the file, group,
    record and unit separators (0x1c-0x1f), space, NEXT LINE (0x85),
    NO-BREAK SPACE (0xa0), OGHAM SPACE MARK (0x1680), the fixed-width
    spaces 0x2000-0x200a, LINE SEPARATOR, PARAGRAPH SEPARATOR, NARROW
    NO-BREAK SPACE (0x202f), MEDIUM MATHEMATICAL SPACE (0x205f) and
    IDEOGRAPHIC SPACE (0x3000). -/
def isPySpaceChar (c : Char) : Bool :=
  let n := c.toNat
  (0x9 ≤ n && n ≤ 0xd) || (0x1c ≤ n && n ≤ 0x20) ||
    n = 0x85 || n = 0xa0 || n = 0x1680 ||
    (0x2000 ≤ n && n ≤ 0x200a) || n = 0x2028 || n = 0x2029 ||
    n = 0x202f || n = 0x205f || n = 0x3000

/-- Python data.isspace(): true when the string is non-empty and every
    character is whitespace. -/
def pyIsSpace (s : String) : Bool :=
  !s.toList.isEmpty && s.toList.all isPySpaceChar

/- Python repr of a loaded document (used by print_exception when it
   embeds the data in the error message).  String escaping inside repr is
   simplified to quoting. -/

/-- Python repr of a string value (simplified: quoted, no escaping). -/
def pyReprStr (s : String) : String :=
  "\x27" ++ s ++ "\x27"

mutual

/-- Python str()/repr() of a loaded document value. -/
def pyRepr : Value → String
  | .null => "None"
  | .boolean true => "True"
  | .boolean false => "False"
  | .int n => toString n
  | .float m e => floatText m e
  | .str s => pyReprStr s
  | .list l => "[" ++ String.intercalate ", " (pyReprList l) ++ "]"
  | .obj m => "\x7b" ++ String.intercalate ", " (pyReprPairs m) ++ "\x7d"

/-- repr of list elements. -/
def pyReprList : List Value → List String
  | [] => []
  | v :: vs => pyRepr v :: pyReprList vs

/-- repr of dict entries. -/
def pyReprPairs : List (String × Value) → List String
  | [] => []
  | (k, v) :: ps => (pyReprStr k ++ ": " ++ pyRepr v) :: pyReprPairs ps

end

/-- Python s[-n:] — the last n characters. -/
def takeRight (s : String) (n : Nat) : String :=
  s.drop (s.length - n)

/-- The display truncation of cli.py print_exception (lines 77-87): a
    string longer than 70 characters keeps its first and last 34 around
    an ellipsis. -/
def truncate70 (s : String) : String :=
  if 70 < s.length then s.take 34 ++ " ... " ++ takeRight s 34 else s

/-- Newline escaping of cli.py print_exception (lines 68-71). -/
def escNl (s : String) : String :=
  s.replace "\n" "\\n"

/-- One optional context line of the print_exception message (lines
    103-105): emitted only when the item text is non-empty. -/
def exLine (label item : String) : String :=
  if item = "" then "" else "        " ++ label ++ ": " ++ item ++ "\n"

/-- The stderr text produced by cli.py print_exception (lines 67-108) for
    an error with the given class name and message: header, message, then
    the non-empty context items in the order query, data, response,
    output, each newline-escaped and truncated for display; the final
    newline is the one print itself appends.  (The e.text branch does not
    apply: query errors carry no text attribute.) -/
def printExceptionMsg (clsName eMsg dataTxt queryTxt responseTxt outputTxt exType : String) :
    String :=
  let d := truncate70 (escNl dataTxt)
  let q := truncate70 (escNl queryTxt)
  let r := truncate70 (escNl responseTxt)
  let ou := truncate70 (escNl outputTxt)
  "jello:  " ++ exType ++ " Exception:  " ++ clsName ++ "\n" ++
    "        " ++ eMsg ++ "\n" ++
    exLine "query" q ++ exLine "data" d ++ exLine "response" r ++ exLine "output" ou ++
    "\n"

/-- The stderr text for a JSON load failure (cli.py lines 179-183:
    print_error of the jello-prefixed load message; the trailing newline
    is the one print appends). -/
def loadErrStderr (e : String) : String :=
  "jello:  JSON Load Exception: Cannot parse the data (Not valid JSON or JSON Lines)\n" ++
    "        " ++ e ++ "\n        " ++ "\n"

/-- Accumulated state of the argument loop of cli.py lines 128-143:
    single-dash option characters in order, the long-option mapping, and
    the query (initially the query parameter of main). -/
structure ParsedArgs where
  options : List Char
  long_options : List (String × Int)
  query : String
deriving DecidableEq, Repr

/-- Insert or update an integer-valued key, Python dict semantics. -/
def updateAssocI (m : List (String × Int)) (k : String) (v : Int) :
    List (String × Int) :=
  match m with
  | [] => [(k, v)]
  | (k2, v2) :: rest =>
      if k2 = k then (k, v) :: rest else (k2, v2) :: updateAssocI rest k v

/-- The zero-valued code point of every Unicode decimal-digit run
    (category Nd comes in runs of ten consecutive code points starting
    at the digit of value zero), from the CPython 3.11 Unicode tables:
    these runs are exactly the digits Python int() accepts. -/
def pyDigitZeros : List Nat :=
  [0x30, 0x660, 0x6f0, 0x7c0, 0x966, 0x9e6, 0xa66, 0xae6, 0xb66, 0xbe6,
   0xc66, 0xce6, 0xd66, 0xde6, 0xe50, 0xed0, 0xf20, 0x1040, 0x1090, 0x17e0,
   0x1810, 0x1946, 0x19d0, 0x1a80, 0x1a90, 0x1b50, 0x1bb0, 0x1c40, 0x1c50,
   0xa620, 0xa8d0, 0xa900, 0xa9d0, 0xa9f0, 0xaa50, 0xabf0, 0xff10, 0x104a0,
   0x10d30, 0x11066, 0x110f0, 0x11136, 0x111d0, 0x112f0, 0x11450, 0x114d0,
   0x11650, 0x116c0, 0x11730, 0x118e0, 0x11950, 0x11c50, 0x11d50, 0x11da0,
   0x16a60, 0x16ac0, 0x16b50, 0x1d7ce, 0x1d7d8, 0x1d7e2, 0x1d7ec, 0x1d7f6,
   0x1e140, 0x1e2f0, 0x1e950, 0x1fbf0]

/-- Decimal value of one character as Python int() reads it: its offset
    within a Unicode decimal-digit run, none for every other
    character. -/
def pyDigitVal (c : Char) : Option Nat :=
  pyDigitZeros.findSome? (fun z =>
    if z ≤ c.toNat ∧ c.toNat ≤ z + 9 then some (c.toNat - z) else none)

/-- Python int(str): optional surrounding whitespace, optional ASCII
    sign, then Unicode decimal digits with single underscores allowed
    between digits. -/
def pyIntDigits (first : Char) (cs : List Char) (acc : Nat) : Option Nat :=
  match pyDigitVal first with
  | none => none
  | some d0 =>
    let acc2 := acc * 10 + d0
    match cs with
    | [] => some acc2
    | '_' :: d :: rest => pyIntDigits d rest acc2
    | '_' :: [] => none
    | d :: rest => pyIntDigits d rest acc2

/-- Python int() applied to a string, returning none where Python raises
    ValueError. -/
def pyInt (s : String) : Option Int :=
  let t := (s.toList.dropWhile isPySpaceChar).reverse.dropWhile isPySpaceChar |>.reverse
  let signed : Bool × List Char :=
    match t with
    | '-' :: r => (true, r)
    | '+' :: r => (false, r)
    | _ => (false, t)
  match signed.2 with
  | [] => none
  | d :: rest =>
    match pyIntDigits d rest 0 with
    | some n => some (if signed.1 then -(n : Int) else (n : Int))
    | none => none

/-- The long-option parse of cli.py lines 136-138: arg[2:] split on '='
    must give exactly a key and a value and the value must parse as a
    Python int; none models the exception path that calls helptext. -/
def parseLongOpt (arg : String) : Option (String × Int) :=
  match splitChar (String.mk (arg.toList.drop 2)) '=' with
  | [k, v] =>
    match pyInt v with
    | some n => some (k, n)
    | none => none
  | _ => none

/-- The classification an argument gets from the startswith tests of
    cli.py lines 132 and 135: double-dash, single-dash, or plain (not
    starting with a dash). -/
inductive ArgKind where
  | longOpt : ArgKind
  | shortOpt : ArgKind
  | plain : ArgKind
deriving DecidableEq, Repr

/-- Classify one argument: longOpt when it starts with two dashes,
    shortOpt when it starts with one, plain otherwise. -/
def argKind (arg : String) : ArgKind :=
  match arg.toList with
  | '-' :: '-' :: _ => .longOpt
  | '-' :: _ => .shortOpt
  | _ => .plain

/-- One iteration of the argument loop (cli.py lines 131-143): a
    single-dash argument extends the option characters with arg[1:], a
    double-dash argument must parse as key=int (otherwise helptext,
    modelled as the error case), anything else becomes the query. -/
def procArg (pa : ParsedArgs) (arg : String) : Except Unit ParsedArgs :=
  match argKind arg with
  | .longOpt =>
    match parseLongOpt arg with
    | some kv => .ok ⟨pa.options, updateAssocI pa.long_options kv.1 kv.2, pa.query⟩
    | none => .error ()
  | .shortOpt => .ok ⟨pa.options ++ arg.toList.drop 1, pa.long_options, pa.query⟩
  | .plain => .ok ⟨pa.options, pa.long_options, arg⟩

/-- The whole argument loop, stopping at the first malformed double-dash
    argument (which calls helptext and exits). -/
def runArgs (pa : ParsedArgs) : List String → Except Unit ParsedArgs
  | [] => .ok pa
  | arg :: rest =>
    match procArg pa arg with
    | .ok pa2 => runArgs pa2 rest
    | .error e => .error e

/-- Argument processing of cli.py lines 128-143 over sys.argv[1:], with
    the query starting at the query parameter of main. -/
def processArgs (query0 : String) (argv : List String) : Except Unit ParsedArgs :=
  runArgs ⟨[], [], query0⟩ argv

/-- The option-state update of cli.py lines 145-153: each flag is OR-ed
    with the presence of its character among the parsed single-dash
    option characters. -/
def applyOptions (o : Opts) (options : List Char) : Opts :=
  ⟨o.compact || options.contains 'c',
   o.init || options.contains 'i',
   o.lines || options.contains 'l',
   o.mono || options.contains 'm',
   o.nulls || options.contains 'n',
   o.raw || options.contains 'r',
   o.schema || options.contains 's',
   o.version_info || options.contains 'v',
   o.helpme || options.contains 'h'⟩

/-- Python s[0:-1]: drop the final character. -/
def strDropLast (s : String) : String :=
  String.mk s.toList.dropLast

/-- The data-processing tail of main (cli.py lines 174-238), entered only
    with non-blank data: load the JSON (exit 1 via print_error on
    failure), run the query (exit 1 via print_exception on failure), then
    format — schema text when the schema flag is set (forcing mono when
    stdout is not a terminal or pygments is absent) and serialized JSON
    otherwise — and print, colorizing through the external highlight
    function only in the non-schema, non-mono, non-raw terminal case.
    The formatting and printing try-blocks cannot raise in this model
    (the walker and serializer are total and printing is atomic). -/
def processData (env : Env) (o1 : Opts) (data : String) (query : String) : ExecResult :=
  match load_json data with
  | .error e => ⟨"", loadErrStderr e, .exited 1, o1, none, ""⟩
  | .ok list_dict_data =>
    match pyquery list_dict_data query with
    | .error e =>
        ⟨"",
         printExceptionMsg e.clsName e.msg (pyRepr list_dict_data) query "" "" "Query",
         .exited 1, o1, none, ""⟩
    | .ok response =>
      if o1.schema then
        let o2 := if !env.stdoutIsTty || !env.pygmentsInstalled then
                    { o1 with mono := true } else o1
        let out := schemaText response
        ⟨out ++ "\n", "", .normal, o2, some response, out⟩
      else
        let out := create_json response o1
        if !o1.mono && !o1.raw && env.stdoutIsTty && env.pygmentsInstalled then
          ⟨strDropLast (env.highlightFn out) ++ "\n", "", .normal, o1, some response, out⟩
        else
          ⟨out ++ "\n", "", .normal, o1, some response, out⟩

/-- The part of main after argument processing (cli.py lines 145-238),
    given the parsed option characters and query: update the shared opts,
    then help, version banner, the missing-data error, the blank-data
    bypass (lines 168-172), or data processing. -/
def mainCore (env : Env) (o : Opts) (data? : Option String)
    (options : List Char) (query : String) : ExecResult :=
  let o1 := applyOptions o options
  if o1.helpme then helpResult o1
  else if o1.version_info then ⟨env.versionText ++ "\n", "", .exited 0, o1, none, ""⟩
  else
    match data? with
    | none => ⟨"", missingDataMsg ++ "\n", .exited 1, o1, none, ""⟩
    | some data =>
      if data ≠ "" ∧ pyIsSpace data = false then processData env o1 data query
      else ⟨"", "", .normal, o1, none, ""⟩

/-- Shallow embedding of cli.py main (lines 111-238), named cliMain since
    Lean reserves the name main for executables.  The signal-handler
    installation and the Windows color enabling (lines 112-123) have no
    observable effect here; data defaults to stdin when the data argument
    is None (line 125-126); argument processing may short-circuit into
    helptext; everything afterwards is mainCore. -/
def cliMain (env : Env) (o : Opts) (data0 : Option String) (argv : List String)
    (query0 : String) : ExecResult :=
  let data? : Option String :=
    match data0 with
    | none => env.stdin
    | some d => some d
  match processArgs query0 argv with
  | .error _ => helpResult o
  | .ok pa => mainCore env o data? pa.options pa.query

/-- The `if __name__ == "__main__"` entry point (cli.py lines 241-242):
    main() with its default arguments data=None and query="_". -/
def cliEntry (env : Env) (o : Opts) (argv : List String) : ExecResult :=
  cliMain env o none argv "_"

/-- The last plain argument of a list (an argument is plain when it does
    not start with a dash), or the given default when there is none: what
    the overwriting in the loop of cli.py lines 131-143 leaves as the
    query. -/
def lastNonOpt (q0 : String) : List String → String
  | [] => q0
  | a :: rest =>
    match argKind a with
    | .plain => lastNonOpt a rest
    | _ => lastNonOpt q0 rest

/- ---------------------------------------------------------------------
   Helper lemmas.
   --------------------------------------------------------------------- -/

/-- A concrete environment for concrete runs: no piped stdin, stdout not a
    terminal, pygments absent, identity highlight, a fixed version
    banner. -/
def envNoTty : Env :=
  ⟨none, false, false, id, "jello:   Version: 1.x"⟩

/-- The root query parses to the empty path and evaluates to the document
    itself. -/
theorem pyquery_root (doc : Value) : pyquery doc "_" = .ok doc := rfl

/-- A successful pass of the argument loop over option-only arguments
    leaves the query untouched. -/
theorem runArgs_query_const (argv : List String) :
    ∀ pa pa2 : ParsedArgs, (∀ a ∈ argv, argKind a ≠ .plain) →
      runArgs pa argv = .ok pa2 → pa2.query = pa.query := by
  induction argv with
  | nil =>
    intro pa pa2 _ hr
    cases hr
    rfl
  | cons a rest ih =>
    intro pa pa2 h hr
    unfold runArgs at hr
    cases hk : argKind a with
    | plain => exact absurd hk (h a (List.mem_cons_self a rest))
    | shortOpt =>
      simp only [procArg, hk] at hr
      have := ih _ _ (fun b hb => h b (List.mem_cons_of_mem a hb)) hr
      simpa using this
    | longOpt =>
      simp only [procArg, hk] at hr
      cases hlo : parseLongOpt a with
      | none => rw [hlo] at hr; cases hr
      | some kv =>
        rw [hlo] at hr
        have := ih _ _ (fun b hb => h b (List.mem_cons_of_mem a hb)) hr
        simpa using this

/-- A successful pass of the argument loop leaves the last plain argument
    (or the incoming default) as the query. -/
theorem runArgs_query_last (argv : List String) :
    ∀ pa pa2 : ParsedArgs, runArgs pa argv = .ok pa2 →
      pa2.query = lastNonOpt pa.query argv := by
  induction argv with
  | nil =>
    intro pa pa2 hr
    cases hr
    rfl
  | cons a rest ih =>
    intro pa pa2 hr
    unfold runArgs at hr
    cases hk : argKind a with
    | plain =>
      simp only [procArg, hk] at hr
      simpa [lastNonOpt, hk] using ih _ _ hr
    | shortOpt =>
      simp only [procArg, hk] at hr
      simpa [lastNonOpt, hk] using ih _ _ hr
    | longOpt =>
      simp only [procArg, hk] at hr
      cases hlo : parseLongOpt a with
      | none => rw [hlo] at hr; cases hr
      | some kv =>
        rw [hlo] at hr
        simpa [lastNonOpt, hk] using ih _ _ hr

/- ---------------------------------------------------------------------
   Claims.
   --------------------------------------------------------------------- -/

/-- C7: for every successfully loaded document, evaluating the root query
    `_` returns the loaded document unchanged — the query engine is the
    identity on the root query. -/
theorem c7_root_query_identity (doc : Value) : pyquery doc "_" = Except.ok doc :=
  pyquery_root doc

/-- C3: the query evaluator executes no host code outside the fixed
    access-path grammar: for every query string it either fails closed
    with one rejection that is independent of the loaded document, or its
    result is exactly the evaluation of the parsed access path against
    the document — a pure function with no other effect. -/
theorem c3_fails_closed (q : String) :
    (∃ e : QueryError, ∀ doc : Value, pyquery doc q = .error e) ∨
    (∃ p : List Step, parseQuery q = .ok p ∧
      ∀ doc : Value, pyquery doc q = evalPath doc p) := by
  cases hp : parseQuery q with
  | error e => exact .inl ⟨e, fun doc => by simp [pyquery, hp]⟩
  | ok p => exact .inr ⟨p, rfl, fun doc => by simp [pyquery, hp]⟩

/-- C5: when no plain (non-option) argument supplies a query string, the
    query stays at the default `_` of the query parameter of main, and the
    root query means the whole loaded document. -/
theorem c5_default_query (argv : List String) (pa : ParsedArgs)
    (h : ∀ a ∈ argv, argKind a ≠ .plain)
    (hok : processArgs "_" argv = .ok pa) :
    pa.query = "_" ∧ ∀ doc : Value, pyquery doc "_" = .ok doc :=
  ⟨runArgs_query_const argv _ _ h hok, fun doc => pyquery_root doc⟩

/-- C5 witness: an option-only argument list keeps the default query. -/
theorem c5_witness :
    processArgs "_" ["-c"] = .ok ⟨['c'], [], "_"⟩ ∧
    ((⟨['c'], [], "_"⟩ : ParsedArgs).query = "_" ∧
      ∀ doc : Value, pyquery doc "_" = .ok doc) :=
  ⟨rfl, c5_default_query ["-c"] _ (by decide) rfl⟩

/-- C10: every plain argument overwrites the query in loop order, so a
    successful argument pass uses the last plain (non-dash) argument as
    the query and earlier ones are silently ignored. -/
theorem c10_last_query_wins (q0 : String) (argv : List String) (pa : ParsedArgs)
    (hok : processArgs q0 argv = .ok pa) :
    pa.query = lastNonOpt q0 argv :=
  runArgs_query_last argv _ _ hok

/-- C10 witness: of two plain arguments only the second survives. -/
theorem c10_witness :
    processArgs "_" ["a", "b"] = .ok ⟨[], [], "b"⟩ ∧
    (⟨[], [], "b"⟩ : ParsedArgs).query = lastNonOpt "_" ["a", "b"] :=
  ⟨rfl, c10_last_query_wins "_" ["a", "b"] _ rfl⟩

/-- C8: under a plain invocation (no arguments, default opts), every
    non-None piped input that is empty or whitespace-only makes main
    write nothing to stdout, report no error and fall off the end
    normally (cli.py lines 168-172); only an absent stdin — data None —
    is reported as the missing-data error, with nothing on stdout. -/
theorem c8_blank_data_bypass (env : Env) (data : String)
    (h : data = "" ∨ pyIsSpace data = true) :
    cliMain env Opts.dflt (some data) [] "_" =
      ⟨"", "", .normal, Opts.dflt, none, ""⟩ ∧
    (env.stdin = none →
      cliMain env Opts.dflt none [] "_" =
        ⟨"", missingDataMsg ++ "\n", .exited 1, Opts.dflt, none, ""⟩) := by
  constructor
  · have hcond : ¬(data ≠ "" ∧ pyIsSpace data = false) := by
      rcases h with h | h
      · exact fun hc => hc.1 h
      · exact fun hc => by rw [h] at hc; cases hc.2
    show (if data ≠ "" ∧ pyIsSpace data = false
          then processData env (applyOptions Opts.dflt []) data "_"
          else ⟨"", "", .normal, applyOptions Opts.dflt [], none, ""⟩) =
        ⟨"", "", .normal, Opts.dflt, none, ""⟩
    rw [if_neg hcond]
    rfl
  · intro hs
    show mainCore env Opts.dflt env.stdin [] "_" = _
    rw [hs]
    rfl

/-- C8 witness: an input of a space, a no-break space and a file
    separator — whitespace for Python well beyond ASCII — passes through
    silently, and an absent stdin is the missing-data error. -/
theorem c8_witness :
    (" \xa0\x1c " = "" ∨ pyIsSpace " \xa0\x1c " = true) ∧
    (cliMain envNoTty Opts.dflt (some " \xa0\x1c ") [] "_" =
        ⟨"", "", .normal, Opts.dflt, none, ""⟩ ∧
      (envNoTty.stdin = none →
        cliMain envNoTty Opts.dflt none [] "_" =
          ⟨"", missingDataMsg ++ "\n", .exited 1, Opts.dflt, none, ""⟩)) :=
  ⟨Or.inr rfl, c8_blank_data_bypass envNoTty " \xa0\x1c " (Or.inr rfl)⟩

/-- C2 counterexample: the all-whitespace input " " is neither valid JSON
    nor valid JSON-Lines (the loader rejects it), yet a plain invocation
    reports no load error at all — it writes nothing anywhere and ends
    normally with exit unset, so the universally quantified load
    failure does not happen for blank malformed input. -/
theorem c2_counterexample :
    (load_json " ").isOk = false ∧
    cliMain envNoTty Opts.dflt (some " ") [] "_" =
      ⟨"", "", .normal, Opts.dflt, none, ""⟩ :=
  ⟨rfl, rfl⟩

/-- C2 as amended: for every non-blank input text on which the loader
    fails, a plain invocation exits with status 1 reporting the load
    error on stderr and produces no output on stdout. -/
theorem c2_amended (env : Env) (data e : String)
    (h1 : data ≠ "") (h2 : pyIsSpace data = false)
    (hl : load_json data = .error e) :
    cliMain env Opts.dflt (some data) [] "_" =
      ⟨"", loadErrStderr e, .exited 1, Opts.dflt, none, ""⟩ := by
  show (if data ≠ "" ∧ pyIsSpace data = false
        then processData env (applyOptions Opts.dflt []) data "_"
        else ⟨"", "", .normal, applyOptions Opts.dflt [], none, ""⟩) = _
  rw [if_pos ⟨h1, h2⟩]
  unfold processData
  simp only [hl]
  rfl

/-- C2 amended witness: the malformed example from the spec fails the load
    and produces exit 1 with empty stdout. -/
theorem c2_witness :
    ("\x7b\"a\": \x7d" ≠ "" ∧ pyIsSpace "\x7b\"a\": \x7d" = false ∧
      load_json "\x7b\"a\": \x7d" = .error "Expecting value") ∧
    cliMain envNoTty Opts.dflt (some "\x7b\"a\": \x7d") [] "_" =
      ⟨"", loadErrStderr "Expecting value", .exited 1, Opts.dflt, none, ""⟩ :=
  ⟨⟨by decide, rfl, rfl⟩, c2_amended envNoTty _ _ (by decide) rfl rfl⟩

/-- When the data-processing tail ends in an error exit, it has written
    nothing to stdout. -/
theorem processData_fail_stdout (env : Env) (o1 : Opts) (data query : String)
    (h : (processData env o1 data query).term = .exited 1) :
    (processData env o1 data query).stdout = "" := by
  unfold processData at h ⊢
  cases hl : load_json data with
  | error e => simp
  | ok d =>
    simp only [hl] at h ⊢
    cases hq : pyquery d query with
    | error e => simp [hq]
    | ok r =>
      simp only [hq] at h ⊢
      by_cases hs : o1.schema = true
      · rw [if_pos hs] at h
        simp at h
      · rw [if_neg hs] at h
        split at h <;> simp at h

/-- When the post-argument part of main ends in an error exit, it has
    written nothing to stdout. -/
theorem mainCore_fail_stdout (env : Env) (o : Opts) (data? : Option String)
    (options : List Char) (query : String)
    (h : (mainCore env o data? options query).term = .exited 1) :
    (mainCore env o data? options query).stdout = "" := by
  unfold mainCore at h ⊢
  by_cases hh : (applyOptions o options).helpme = true
  · rw [if_pos hh] at h
    simp [helpResult] at h
  · rw [if_neg hh] at h ⊢
    by_cases hv : (applyOptions o options).version_info = true
    · rw [if_pos hv] at h
      simp at h
    · rw [if_neg hv] at h ⊢
      cases data? with
      | none => simp
      | some data =>
        simp only at h ⊢
        by_cases hd : data ≠ "" ∧ pyIsSpace data = false
        · rw [if_pos hd] at h ⊢
          exact processData_fail_stdout env _ data query h
        · rw [if_neg hd] at h
          simp at h

/-- C4: errors are fail-fast — whenever a call to main ends with the
    error exit status 1 (load, query, formatting or output failure, or
    missing data), nothing has been written to stdout: no partial output
    exists, and the single-pass pipeline never retries a failed stage. -/
theorem c4_fail_fast (env : Env) (o : Opts) (d0 : Option String)
    (argv : List String) (q0 : String)
    (h : (cliMain env o d0 argv q0).term = .exited 1) :
    (cliMain env o d0 argv q0).stdout = "" := by
  unfold cliMain at h ⊢
  cases hpa : processArgs q0 argv with
  | error e =>
    simp only [hpa] at h
    simp [helpResult] at h
  | ok pa =>
    simp only [hpa] at h ⊢
    exact mainCore_fail_stdout env o _ pa.options pa.query h

/-- C4 witness: unparseable piped data exits with status 1 and an empty
    stdout. -/
theorem c4_witness :
    (cliMain envNoTty Opts.dflt (some "bad") [] "_").term = .exited 1 ∧
    (cliMain envNoTty Opts.dflt (some "bad") [] "_").stdout = "" :=
  ⟨rfl, c4_fail_fast envNoTty Opts.dflt (some "bad") [] "_" rfl⟩

/-- Whenever the data-processing tail reaches a query result, the output
    it formats is the Schema Walker text of that result when the schema
    flag is set and the Serializer rendering of it otherwise. -/
theorem processData_backend (env : Env) (o1 : Opts) (data query : String)
    (r : Value) (h : (processData env o1 data query).response? = some r) :
    (processData env o1 data query).output =
      (if (processData env o1 data query).opts.schema = true then schemaText r
       else create_json r (processData env o1 data query).opts) := by
  unfold processData at h ⊢
  cases hl : load_json data with
  | error e => simp [hl] at h
  | ok d =>
    simp only [hl] at h ⊢
    cases hq : pyquery d query with
    | error e => simp [hq] at h
    | ok resp =>
      simp only [hq] at h ⊢
      by_cases hs : o1.schema = true
      · rw [if_pos hs] at h ⊢
        simp only [Option.some_inj] at h
        subst h
        by_cases hc : (!env.stdoutIsTty || !env.pygmentsInstalled) = true
        · simp [hc, hs]
        · simp [hc, hs]
      · rw [if_neg hs] at h ⊢
        by_cases hm : (!o1.mono && !o1.raw && env.stdoutIsTty && env.pygmentsInstalled) = true
        · rw [if_pos hm] at h ⊢
          simp only [Option.some_inj] at h
          subst h
          simp [hs]
        · rw [if_neg hm] at h ⊢
          simp only [Option.some_inj] at h
          subst h
          simp [hs]

/-- Whenever the post-argument part of main reaches a query result, its
    output comes from the back-end the schema flag selects. -/
theorem mainCore_backend (env : Env) (o : Opts) (data? : Option String)
    (options : List Char) (query : String) (r : Value)
    (h : (mainCore env o data? options query).response? = some r) :
    (mainCore env o data? options query).output =
      (if (mainCore env o data? options query).opts.schema = true then schemaText r
       else create_json r (mainCore env o data? options query).opts) := by
  unfold mainCore at h ⊢
  by_cases hh : (applyOptions o options).helpme = true
  · rw [if_pos hh] at h
    simp [helpResult] at h
  · rw [if_neg hh] at h ⊢
    by_cases hv : (applyOptions o options).version_info = true
    · rw [if_pos hv] at h
      simp at h
    · rw [if_neg hv] at h ⊢
      cases data? with
      | none => simp at h
      | some data =>
        simp only at h ⊢
        by_cases hd : data ≠ "" ∧ pyIsSpace data = false
        · rw [if_pos hd] at h ⊢
          exact processData_backend env _ data query r h
        · rw [if_neg hd] at h
          simp at h

/-- C6: the output text of every run that produces one is computed by
    exactly one of the two back-ends, selected by the schema flag in the
    option state the run ends with: the Schema Walker text of the query
    result when schema is set, the Serializer JSON rendering of the
    query result otherwise. -/
theorem c6_backend_selection (env : Env) (o : Opts) (d0 : Option String)
    (argv : List String) (q0 : String) (r : Value)
    (h : (cliMain env o d0 argv q0).response? = some r) :
    (cliMain env o d0 argv q0).output =
      (if (cliMain env o d0 argv q0).opts.schema = true then schemaText r
       else create_json r (cliMain env o d0 argv q0).opts) := by
  unfold cliMain at h ⊢
  cases hpa : processArgs q0 argv with
  | error e =>
    simp only [hpa] at h
    simp [helpResult] at h
  | ok pa =>
    simp only [hpa] at h ⊢
    exact mainCore_backend env o _ pa.options pa.query r h

/-- C6 witness: a plain run on the document 1 reaches a result and its
    output is the rendering the serializer gives that result. -/
theorem c6_witness :
    (cliMain envNoTty Opts.dflt (some "1") [] "_").response? = some (Value.int 1) ∧
    (cliMain envNoTty Opts.dflt (some "1") [] "_").output =
      (if (cliMain envNoTty Opts.dflt (some "1") [] "_").opts.schema = true
       then schemaText (Value.int 1)
       else create_json (Value.int 1) (cliMain envNoTty Opts.dflt (some "1") [] "_").opts) :=
  ⟨rfl, c6_backend_selection envNoTty Opts.dflt (some "1") [] "_" (Value.int 1) rfl⟩

